import Mathlib

/-!
Verification development for the OCS slot autofill tool
(`ocs_slot_autofill_app.py`).  The Python source is shallowly embedded:
dictionaries with string values become structures of `Option String`
(`none` = missing key), Python truthiness becomes `truthy`, and the
side-effecting Playwright calls become explicit action traces driven by
an environment oracle that says which remote operations succeed.
-/

namespace OCS

/-- A slot record: the `slot` dict handed to `book_slot` / `fill_slot_form`.
`none` models a missing key, `some ""` an empty string value. -/
@[ext]
structure Slot where
  operation : Option String
  airport : Option String
  acreg : Option String
  date : Option String
  time : Option String
  seats : Option String
  ac_type : Option String
  other_airport : Option String
  parkloc : Option String
  deriving DecidableEq

/-- Python truthiness of `dict.get(k)`: `None` and `""` are falsy. -/
def truthy : Option String → Bool
  | none => false
  | some s => !s.isEmpty

/-- Value of a key known to be present (used only under a `truthy` guard). -/
def getS : Option String → String
  | none => ""
  | some s => s

/-- Python `slot.get(k) or dflt`. -/
def orElse (v : Option String) (dflt : String) : String :=
  match v with
  | none => dflt
  | some s => if s.isEmpty then dflt else s

/-- Embeds `default_regs = {"E545": "CGASL", "C25A": "CFASP", "C25B": "CFASY"}`
from `_apply_slot_defaults`. -/
def default_regs (t : String) : Option String :=
  if t = "E545" then some "CGASL"
  else if t = "C25A" then some "CFASP"
  else if t = "C25B" then some "CFASY"
  else none

/-- Embeds `OCSAutomationSession._apply_slot_defaults` (the mutations it
performs on the slot dict): `ac_type` defaults to `"E545"`; `acreg` is filled
from `default_regs` when blank; `seats` is filled from the aircraft type when
blank. -/
def apply_slot_defaults (s : Slot) : Slot :=
  let ac_type := orElse s.ac_type "E545"
  { s with
    ac_type := some ac_type
    acreg :=
      if !truthy s.acreg && (default_regs ac_type).isSome then default_regs ac_type
      else s.acreg
    seats :=
      if !truthy s.seats then
        (if ac_type = "E545" then some "9"
         else if ac_type = "C25A" || ac_type = "C25B" then some "7"
         else s.seats)
      else s.seats }

/-- ASCII lowercasing of a character (Python `str.lower` on the ASCII words
this tool handles). -/
def lowerChar (c : Char) : Char :=
  if 65 ≤ c.toNat ∧ c.toNat ≤ 90 then Char.ofNat (c.toNat + 32) else c

/-- Python `str.lower()` (ASCII). -/
def lowerStr (s : String) : String := String.mk (s.toList.map lowerChar)

/-- Embeds `operation = slot.get("operation", "departure").lower()` from
`_apply_slot_defaults`. -/
def slotOperationOf (s : Slot) : String :=
  lowerStr (s.operation.getD "departure")

/-- Embeds `parkloc = slot.get("parkloc") or "SKYCHARTER"` from
`_apply_slot_defaults`. -/
def slotParklocOf (s : Slot) : String :=
  orElse s.parkloc "SKYCHARTER"

theorem orElse_isEmpty_false (v : Option String) (d : String)
    (hd : d.isEmpty = false) : (orElse v d).isEmpty = false := by
  cases v with
  | none => simpa [orElse] using hd
  | some s =>
    by_cases h : s.isEmpty
    · simpa [orElse, h] using hd
    · simp [orElse, h]

theorem orElse_some_of_nonempty (s d : String) (h : s.isEmpty = false) :
    orElse (some s) d = s := by
  simp [orElse, h]

theorem default_regs_nonempty (t r : String) (h : default_regs t = some r) :
    r.isEmpty = false := by
  unfold default_regs at h
  split_ifs at h <;> simp_all <;> subst h <;> decide

theorem apply_ac_type (s : Slot) :
    (apply_slot_defaults s).ac_type = some (orElse s.ac_type "E545") := rfl

theorem apply_acreg (s : Slot) :
    (apply_slot_defaults s).acreg =
      if !truthy s.acreg && (default_regs (orElse s.ac_type "E545")).isSome then
        default_regs (orElse s.ac_type "E545")
      else s.acreg := rfl

theorem apply_seats (s : Slot) :
    (apply_slot_defaults s).seats =
      if !truthy s.seats then
        (if orElse s.ac_type "E545" = "E545" then some "9"
         else if orElse s.ac_type "E545" = "C25A" || orElse s.ac_type "E545" = "C25B" then some "7"
         else s.seats)
      else s.seats := rfl

theorem apply_slot_defaults_idem (s : Slot) :
    apply_slot_defaults (apply_slot_defaults s) = apply_slot_defaults s := by
  have hE : ("E545" : String).isEmpty = false := by decide
  have hac : (orElse s.ac_type "E545").isEmpty = false :=
    orElse_isEmpty_false s.ac_type "E545" hE
  have hfix : orElse ((apply_slot_defaults s).ac_type) "E545" = orElse s.ac_type "E545" := by
    rw [apply_ac_type, orElse_some_of_nonempty _ _ hac]
  ext1
  case operation => rfl
  case airport => rfl
  case date => rfl
  case time => rfl
  case other_airport => rfl
  case parkloc => rfl
  case ac_type =>
    rw [apply_ac_type (apply_slot_defaults s), hfix, apply_ac_type]
  case acreg =>
    rw [apply_acreg (apply_slot_defaults s), hfix, apply_acreg s]
    by_cases hreg : (!truthy s.acreg && (default_regs (orElse s.ac_type "E545")).isSome) = true
    · rcases hr : default_regs (orElse s.ac_type "E545") with _ | r
      · rw [hr] at hreg; simp at hreg
      · rw [hr] at hreg
        have hrne : r.isEmpty = false := default_regs_nonempty _ _ hr
        have ht : truthy (some r) = true := by simp [truthy, hrne]
        rw [if_pos hreg]
        simp [ht]
    · rcases hr : default_regs (orElse s.ac_type "E545") with _ | r <;> rw [hr] at hreg <;>
        rw [if_neg hreg] <;> rw [if_neg hreg]
  case seats =>
    rw [apply_seats (apply_slot_defaults s), hfix, apply_seats s]
    by_cases hseats : truthy s.seats = true
    · simp [hseats]
    · have hs' : (!truthy s.seats) = true := by simp [hseats]
      rw [if_pos hs']
      by_cases h1 : orElse s.ac_type "E545" = "E545"
      · rw [if_pos h1]
        have ht : truthy (some "9") = true := by decide
        simp [ht]
      · rw [if_neg h1]
        by_cases h2 : (orElse s.ac_type "E545" = "C25A" || orElse s.ac_type "E545" = "C25B") = true
        · rw [if_pos h2]
          have ht : truthy (some "7") = true := by decide
          simp [ht]
        · rw [if_neg h2]
          have h2' : ¬(orElse s.ac_type "E545" = "C25A" ∨ orElse s.ac_type "E545" = "C25B") := by
            simpa using h2
          simp [hs', h1, h2']

theorem apply_slot_defaults_seats_preserved (s : Slot) (h : truthy s.seats = true) :
    (apply_slot_defaults s).seats = s.seats := by
  simp [apply_slot_defaults, h]

/-- C5: applying slot defaults is idempotent, and an explicitly supplied
(non-empty) seats value is never overwritten, whatever the aircraft type. -/
theorem defaults_idempotent_nondestructive (s : Slot) :
    apply_slot_defaults (apply_slot_defaults s) = apply_slot_defaults s ∧
    (truthy s.seats = true → (apply_slot_defaults s).seats = s.seats) :=
  ⟨apply_slot_defaults_idem s, apply_slot_defaults_seats_preserved s⟩

def seatsSlotW : Slot :=
  ⟨some "departure", some "CYYZ", none, none, none, some "5", some "C25B", none, none⟩

/-- Witness for C5 at a concrete slot with an explicit seats value. -/
theorem defaults_idempotent_nondestructive_witness :
    apply_slot_defaults (apply_slot_defaults seatsSlotW) = apply_slot_defaults seatsSlotW ∧
    (apply_slot_defaults seatsSlotW).seats = some "5" := by
  refine ⟨(defaults_idempotent_nondestructive seatsSlotW).1, ?_⟩
  have h := (defaults_idempotent_nondestructive seatsSlotW).2 (by decide)
  simpa [seatsSlotW] using h

def slotE545 : Slot := ⟨none, none, none, none, none, none, some "E545", none, none⟩

def slotC25A : Slot := ⟨none, none, none, none, none, none, some "C25A", none, none⟩

/-- C6: with aircraft type E545 and no seats/registration supplied, defaults
yield seats "9" and registration "CGASL"; with C25A they yield "7" and
"CFASP". -/
theorem defaults_by_aircraft_type :
    (apply_slot_defaults slotE545).seats = some "9" ∧
    (apply_slot_defaults slotE545).acreg = some "CGASL" ∧
    (apply_slot_defaults slotC25A).seats = some "7" ∧
    (apply_slot_defaults slotC25A).acreg = some "CFASP" := by
  refine ⟨?_, ?_, ?_, ?_⟩ <;> decide

/-- Embeds the `ordinal_map` dict of `OCSAutomationSession._login`
(word → 1-based position, over the words first..tenth). -/
def ordinal_map (w : String) : Option Nat :=
  if w = "first" then some 1
  else if w = "second" then some 2
  else if w = "third" then some 3
  else if w = "fourth" then some 4
  else if w = "fifth" then some 5
  else if w = "sixth" then some 6
  else if w = "seventh" then some 7
  else if w = "eighth" then some 8
  else if w = "ninth" then some 9
  else if w = "tenth" then some 10
  else none

def ordinalWords : List String :=
  ["first", "second", "third", "fourth", "fifth",
   "sixth", "seventh", "eighth", "ninth", "tenth"]

/-- One position of the search in
`re.search(r"the\s+(\w+)\s+and\s+(\w+)\s+character", instruction, re.IGNORECASE)`:
an anchored match of the pattern against the whitespace-token sequence
starting here. -/
def matchOrdinalPattern (ts : List String) : Option (String × String) :=
  match ts with
  | t :: w1 :: a :: w2 :: c :: _ =>
    if lowerStr t = "the" && lowerStr a = "and" && lowerStr c = "character"
    then some (w1, w2) else none
  | _ => none

/-- The regex search over the instruction tokens: first position where the
pattern `the <w1> and <w2> character` matches. -/
def findOrdinalWords : List String → Option (String × String)
  | [] => none
  | t :: rest =>
    match matchOrdinalPattern (t :: rest) with
    | some p => some p
    | none => findOrdinalWords rest

/-- `phrase[i]` for an in-range 0-based index. -/
def strChar (s : String) (i : Nat) : Char := s.toList.getD i ' '

inductive ChallengeResult
  | parseError (instruction : String)
  | unknownOrdinal (w1 w2 : String)
  | secretTooShort (idx1 idx2 len : Nat)
  | filled (c1 c2 : Char)
  deriving DecidableEq

inductive LoginAction
  | fillInput (n : Nat) (c : Char)
  | clickLogin
  | showErrorDialog
  | closeSession
  deriving DecidableEq

/-- Embeds the body of the passphrase challenge after the two ordinal words
have been captured: look both words up in `ordinal_map` (raising on an unknown
ordinal), check the secret length against `max(idx1, idx2)` (error dialog and
session close, with no fill and no submit, when too short), else fill
`phrase[idx1-1]` into input 0 and `phrase[idx2-1]` into input 1 and click the
Login button. -/
def challengeWords (w1 w2 : String) (phrase : String) :
    ChallengeResult × List LoginAction :=
  match ordinal_map (lowerStr w1), ordinal_map (lowerStr w2) with
  | some idx1, some idx2 =>
    if phrase.length < max idx1 idx2 then
      (ChallengeResult.secretTooShort idx1 idx2 phrase.length,
       [LoginAction.showErrorDialog, LoginAction.closeSession])
    else
      (ChallengeResult.filled (strChar phrase (idx1 - 1)) (strChar phrase (idx2 - 1)),
       [LoginAction.fillInput 0 (strChar phrase (idx1 - 1)),
        LoginAction.fillInput 1 (strChar phrase (idx2 - 1)),
        LoginAction.clickLogin])
  | _, _ => (ChallengeResult.unknownOrdinal w1 w2, [])

/-- Embeds LOGIN STEP B of `OCSAutomationSession._login`: run the regex
search over the instruction (given by its whitespace-token sequence), then run
the challenge body on the stored passphrase. -/
def challengeStep (instructionTokens : List String) (phrase : String) :
    ChallengeResult × List LoginAction :=
  match findOrdinalWords instructionTokens with
  | none => (ChallengeResult.parseError (String.intercalate " " instructionTokens), [])
  | some (w1, w2) => challengeWords w1 w2 phrase

theorem ordinal_map_total :
    ∀ w ∈ ordinalWords, ∃ k, ordinal_map w = some k ∧ 1 ≤ k ∧ k ≤ 10 := by
  intro w hw
  simp only [ordinalWords, List.mem_cons, List.not_mem_nil, or_false] at hw
  rcases hw with h | h | h | h | h | h | h | h | h | h <;> subst h <;>
    exact ⟨_, rfl, by norm_num, by norm_num⟩

/-- C3: ordinal-word parsing is total from first..tenth to 1..10; for any two
valid ordinal words and a long-enough secret, the two characters filled into
the challenge inputs are exactly `secret[idx1-1]` then `secret[idx2-1]`; and
on the concrete instruction naming the fourth and seventh characters with
secret "abcdefgh", the characters filled are 'd' then 'g'. -/
theorem ordinal_challenge_extraction :
    (∀ w ∈ ordinalWords, ∃ k, ordinal_map w = some k ∧ 1 ≤ k ∧ k ≤ 10) ∧
    (∀ w1 w2 idx1 idx2 (secret : String),
      ordinal_map (lowerStr w1) = some idx1 →
      ordinal_map (lowerStr w2) = some idx2 →
      max idx1 idx2 ≤ secret.length →
      challengeWords w1 w2 secret =
        (ChallengeResult.filled (strChar secret (idx1 - 1)) (strChar secret (idx2 - 1)),
         [LoginAction.fillInput 0 (strChar secret (idx1 - 1)),
          LoginAction.fillInput 1 (strChar secret (idx2 - 1)),
          LoginAction.clickLogin])) ∧
    challengeStep
      ["Please", "type", "the", "fourth", "and", "seventh",
       "character", "in", "your", "pass", "phrase"] "abcdefgh" =
      (ChallengeResult.filled 'd' 'g',
       [LoginAction.fillInput 0 'd', LoginAction.fillInput 1 'g', LoginAction.clickLogin]) := by
  refine ⟨ordinal_map_total, ?_, by decide⟩
  intro w1 w2 idx1 idx2 secret h1 h2 hlen
  simp [challengeWords, h1, h2, Nat.not_lt.mpr hlen]

/-- Witness for C3 at concrete ordinal words and secret. -/
theorem ordinal_challenge_extraction_witness :
    challengeWords "third" "first" "xyz" =
      (ChallengeResult.filled 'z' 'x',
       [LoginAction.fillInput 0 'z', LoginAction.fillInput 1 'x', LoginAction.clickLogin]) := by
  have h := ordinal_challenge_extraction.2.1 "third" "first" 3 1 "xyz"
    (by decide) (by decide) (by decide)
  simpa [strChar] using h

/-- C4: when the stored secret is shorter than the larger parsed index, the
challenge fails with the secret-too-short outcome and no challenge input is
filled and no submit is clicked. -/
theorem secret_too_short_no_fill :
    ∀ w1 w2 idx1 idx2 (secret : String),
      ordinal_map (lowerStr w1) = some idx1 →
      ordinal_map (lowerStr w2) = some idx2 →
      secret.length < max idx1 idx2 →
      (challengeWords w1 w2 secret).1 =
        ChallengeResult.secretTooShort idx1 idx2 secret.length ∧
      (∀ a ∈ (challengeWords w1 w2 secret).2,
        a ≠ LoginAction.clickLogin ∧ ∀ n c, a ≠ LoginAction.fillInput n c) := by
  intro w1 w2 idx1 idx2 secret h1 h2 hlen
  constructor
  · simp [challengeWords, h1, h2, hlen]
  · intro a ha
    simp [challengeWords, h1, h2, hlen] at ha
    rcases ha with h | h <;> subst h <;> exact ⟨by simp, by intro n c; simp⟩

/-- Witness for C4 at concrete words and a too-short secret. -/
theorem secret_too_short_no_fill_witness :
    (challengeWords "second" "tenth" "abc").1 = ChallengeResult.secretTooShort 2 10 3 ∧
    (challengeWords "second" "tenth" "abc").2 =
      [LoginAction.showErrorDialog, LoginAction.closeSession] := by
  have h := secret_too_short_no_fill "second" "tenth" 2 10 "abc"
    (by decide) (by decide) (by decide)
  exact ⟨h.1, by decide⟩

/-- A parsed Python JSON value, at the granularity `parse_feas_json` needs:
either a flat string dict or some non-dict value; `raised` models a
`json.loads` failure. -/
inductive RawParse
  | parsedDict (entries : String → Option String)
  | parsedOther
  | raised

/-- Embeds `parse_feas_json`: the parsed value when it is a dict, else `None`
(also on a parse exception). -/
def parse_feas_json : RawParse → Option (String → Option String)
  | RawParse.parsedDict d => some d
  | RawParse.parsedOther => none
  | RawParse.raised => none

/-- Python `data.get(k, "")` on the flat record. -/
def pyGet (d : String → Option String) (k : String) : String := (d k).getD ""

/-- Python `a or b` on strings. -/
def pyOr (a b : String) : String := if a.isEmpty then b else a

/-- Embeds `acreg_var.set(data.get("acreg", "") or data.get("tail", ""))`
from `parse_feas`. -/
def feas_acreg (d : String → Option String) : String :=
  pyOr (pyGet d "acreg") (pyGet d "tail")

/-- Embeds the counterpart-airport extraction
`data.get("other_airport", "") or data.get("dest", "") or data.get("orig", "")`
from `parse_feas`. -/
def feas_other_airport (d : String → Option String) : String :=
  pyOr (pyGet d "other_airport") (pyOr (pyGet d "dest") (pyGet d "orig"))

/-- A record whose "acreg" key is present but empty while "tail" is set. -/
def feasCounterDict : String → Option String := fun k =>
  if k = "acreg" then some "" else if k = "tail" then some "CFASY" else none

/-- C8 counterexample: with key "acreg" present (value "") and "tail" set to
"CFASY", the tail-registration field becomes "CFASY", not the present "acreg"
value — presence alone does not win the fallback. -/
theorem feas_acreg_present_counterexample :
    feasCounterDict "acreg" = some "" ∧
    feas_acreg feasCounterDict = "CFASY" ∧
    feas_acreg feasCounterDict ≠ "" := by
  refine ⟨rfl, by decide, by decide⟩

/-- C8 (amended): non-dict or unparseable input yields `None` (never a crash,
the parser is total); the tail-registration field takes "acreg" when its value
is non-empty, otherwise "tail"; the counterpart-airport field takes
"other_airport" when non-empty, else "dest" when non-empty, else "orig". -/
theorem feas_fallbacks :
    (∀ p : RawParse, (∀ d, p ≠ RawParse.parsedDict d) → parse_feas_json p = none) ∧
    (∀ d : String → Option String,
      (pyGet d "acreg" ≠ "" → feas_acreg d = pyGet d "acreg") ∧
      (pyGet d "acreg" = "" → feas_acreg d = pyGet d "tail") ∧
      (pyGet d "other_airport" ≠ "" → feas_other_airport d = pyGet d "other_airport") ∧
      (pyGet d "other_airport" = "" → pyGet d "dest" ≠ "" →
        feas_other_airport d = pyGet d "dest") ∧
      (pyGet d "other_airport" = "" → pyGet d "dest" = "" →
        feas_other_airport d = pyGet d "orig")) := by
  constructor
  · intro p hp
    cases p with
    | parsedDict d => exact absurd rfl (hp d)
    | parsedOther => rfl
    | raised => rfl
  · intro d
    refine ⟨?_, ?_, ?_, ?_, ?_⟩ <;> intro h <;>
      simp_all [feas_acreg, feas_other_airport, pyOr, String.isEmpty_iff]

/-- Witness for C8's amended fallbacks at a concrete record. -/
theorem feas_fallbacks_witness :
    parse_feas_json RawParse.parsedOther = none ∧
    feas_acreg feasCounterDict = pyGet feasCounterDict "tail" := by
  refine ⟨feas_fallbacks.1 RawParse.parsedOther (by intro d h; cases h), ?_⟩
  exact (feas_fallbacks.2 feasCounterDict).2.1 (by decide)

/-- Remote interactions of one dropdown selection. -/
inductive DropAction
  | clickControl
  | settleWait
  | checkMenu (visible : Bool)
  | clickOption (name : String)
  deriving DecidableEq

/-- Embeds the shared menu-open retry loop
`for _ in range(n): control.click(force=True); page.wait_for_timeout(200);
if menu.is_visible(): break / else: raise` of `select_stc`, `select_parkloc`
and `select_row_react_select`.  `menuVisible k` says whether the menu is
visible after the k-th click; `i` is the index of the next attempt, `n` the
number of attempts left.  Returns the remote actions performed and whether
the menu opened. -/
def openLoop (menuVisible : Nat → Bool) : Nat → Nat → List DropAction × Bool
  | _, 0 => ([], false)
  | i, n + 1 =>
    let acts := [DropAction.clickControl, DropAction.settleWait,
                 DropAction.checkMenu (menuVisible i)]
    if menuVisible i then (acts, true)
    else
      let r := openLoop menuVisible (i + 1) n
      (acts ++ r.1, r.2)

/-- Embeds `select_stc` from the resolved control onward: two open attempts,
`raise Exception("STC dropdown did not open")` when neither opens the menu,
otherwise click the option whose accessible name equals the requested value. -/
def select_stc (menuVisible : Nat → Bool) (value : String) :
    List DropAction × Except String Unit :=
  let r := openLoop menuVisible 0 2
  if r.2 then (r.1 ++ [DropAction.clickOption value], Except.ok ())
  else (r.1, Except.error "STC dropdown did not open")

/-- Recognizes a click on the dropdown control. -/
def isClick : DropAction → Bool
  | DropAction.clickControl => true
  | _ => false

theorem openLoop_click_count (menuVisible : Nat → Bool) :
    ∀ n i, ((openLoop menuVisible i n).1.countP isClick) ≤ n := by
  intro n
  induction n with
  | zero => intro i; simp [openLoop]
  | succ m ih =>
    intro i
    by_cases h : menuVisible i = true
    · simp [openLoop, h, List.countP_cons, isClick]
    · simp only [openLoop, h, Bool.false_eq_true, if_false]
      have hm := ih (i + 1)
      simp only [List.countP_append, List.countP_cons, List.countP_nil, isClick]
      simp only [Bool.false_eq_true, if_false, if_true]
      omega

/-- C7: a dropdown selection clicks the control at most twice (each attempt
being click, settle wait, visibility check); if neither attempt opens the
menu the selection fails with the dropdown-never-opened error and no option
is clicked; if an attempt opens it, the option named by the requested label
is clicked and the selection succeeds. -/
theorem dropdown_two_attempts (menuVisible : Nat → Bool) (value : String) :
    ((select_stc menuVisible value).1.countP isClick ≤ 2) ∧
    (menuVisible 0 = false → menuVisible 1 = false →
      (select_stc menuVisible value).2 = Except.error "STC dropdown did not open" ∧
      ∀ a ∈ (select_stc menuVisible value).1, ∀ nm, a ≠ DropAction.clickOption nm) ∧
    ((menuVisible 0 = true ∨ menuVisible 1 = true) →
      DropAction.clickOption value ∈ (select_stc menuVisible value).1 ∧
      (select_stc menuVisible value).2 = Except.ok ()) := by
  refine ⟨?_, ?_, ?_⟩
  · by_cases h0 : menuVisible 0 = true
    · simp [select_stc, openLoop, h0, List.countP_cons, isClick]
    · by_cases h1 : menuVisible 1 = true <;>
        simp [select_stc, openLoop, h0, h1, List.countP_cons, List.countP_append, isClick]
  · intro h0 h1
    constructor
    · simp [select_stc, openLoop, h0, h1]
    · intro a ha nm
      simp [select_stc, openLoop, h0, h1] at ha
      rcases ha with h | h | h | h | h | h <;> subst h <;> simp
  · intro h
    rcases h with h0 | h1
    · constructor <;> simp [select_stc, openLoop, h0]
    · by_cases h0 : menuVisible 0 = true
      · constructor <;> simp [select_stc, openLoop, h0]
      · constructor <;> simp [select_stc, openLoop, h0, h1]

/-- Witness for C7: with a menu that never opens, the error is raised and the
option list is never touched. -/
theorem dropdown_two_attempts_witness :
    (select_stc (fun _ => false) "D").2 = Except.error "STC dropdown did not open" ∧
    (select_stc (fun _ => false) "D").1 =
      [DropAction.clickControl, DropAction.settleWait, DropAction.checkMenu false,
       DropAction.clickControl, DropAction.settleWait, DropAction.checkMenu false] := by
  refine ⟨((dropdown_two_attempts (fun _ => false) "D").2.1 rfl rfl).1, by decide⟩

/-- One remote step of the slot-fill orchestration. -/
inductive Step
  | resetLog
  | ensureNav
  | addRow (opkey : String)
  | selectAirport (code : String)
  | errorDialog (msg : String)
  | infoDialog (msg : String)
  | fill (label : String) (value : String)
  | pressEscape
  | selectStcOpt (value : String)
  | selectParklocOpt (value : String)
  | svcControlTry (visible : Bool)
  | selectCombinedService (optionName : String)
  | sendAll (ok : Bool)
  | unknownOp (op : String)
  | rowVisible
  deriving DecidableEq

/-- One orchestration operation: a step that always succeeds, a step whose
failure raises (aborting everything after it), or a step whose failure is
swallowed after an extra action (the failed A/P select shows a dialog and
continues). -/
inductive Op
  | plain (s : Step)
  | raising (s : Step) (ok : Bool)
  | nonfatal (s : Step) (ok : Bool) (onFail : Step)
  deriving DecidableEq

/-- Executes an operation list: the performed steps and whether the end was
reached without an exception. -/
def run : List Op → List Step × Bool
  | [] => ([], true)
  | Op.plain s :: rest =>
    let r := run rest
    (s :: r.1, r.2)
  | Op.raising s ok :: rest =>
    if ok then
      let r := run rest
      (s :: r.1, r.2)
    else ([s], false)
  | Op.nonfatal s ok onFail :: rest =>
    let r := run rest
    ((s :: if ok then [] else [onFail]) ++ r.1, r.2)

/-- Whether every raising operation in the list succeeds. -/
def allOk : List Op → Bool
  | [] => true
  | Op.plain _ :: rest => allOk rest
  | Op.raising _ ok :: rest => ok && allOk rest
  | Op.nonfatal _ _ _ :: rest => allOk rest

/-- All steps an operation list could ever perform. -/
def opStepsAll : List Op → List Step
  | [] => []
  | Op.plain s :: rest => s :: opStepsAll rest
  | Op.raising s _ :: rest => s :: opStepsAll rest
  | Op.nonfatal s _ onFail :: rest => s :: onFail :: opStepsAll rest

theorem run_snd_eq_allOk : ∀ l : List Op, (run l).2 = allOk l := by
  intro l
  induction l with
  | nil => rfl
  | cons o rest ih =>
    cases o with
    | plain s => simpa [run, allOk] using ih
    | raising s ok => cases ok <;> simp [run, allOk, ih]
    | nonfatal s ok onFail => simpa [run, allOk] using ih

theorem run_subset : ∀ l : List Op, ∀ s ∈ (run l).1, s ∈ opStepsAll l := by
  intro l
  induction l with
  | nil => intro s hs; simp [run] at hs
  | cons o rest ih =>
    cases o with
    | plain t =>
      intro s hs
      simp only [run, List.mem_cons] at hs
      rcases hs with h | h
      · simp [opStepsAll, h]
      · simp [opStepsAll, ih s h]
    | raising t ok =>
      intro s hs
      cases ok with
      | true =>
        simp only [run, if_true] at hs
        rcases List.mem_cons.mp hs with h | h
        · simp [opStepsAll, h]
        · simp [opStepsAll, ih s h]
      | false =>
        simp only [run, Bool.false_eq_true, if_false, List.mem_singleton] at hs
        simp [opStepsAll, hs]
    | nonfatal t ok onFail =>
      intro s hs
      simp only [run, List.append_eq, List.mem_append, List.mem_cons] at hs
      rcases hs with (h | h) | h
      · simp [opStepsAll, h]
      · cases ok with
        | true => simp at h
        | false =>
          simp only [Bool.false_eq_true, if_false, List.mem_singleton] at h
          simp [opStepsAll, h]
      · simp [opStepsAll, ih s h]

theorem run_append (a b : List Op) :
    run (a ++ b) =
      if allOk a then ((run a).1 ++ (run b).1, (run b).2) else run a := by
  induction a with
  | nil => simp [run, allOk]
  | cons o rest ih =>
    cases o with
    | plain s =>
      by_cases h : allOk rest = true <;> simp [run, allOk, ih, h]
    | raising s ok =>
      cases ok with
      | true => by_cases h : allOk rest = true <;> simp [run, allOk, ih, h]
      | false => simp [run, allOk]
    | nonfatal s ok onFail =>
      by_cases h : allOk rest = true <;> simp [run, allOk, ih, h]

theorem allOk_append (a b : List Op) :
    allOk (a ++ b) = (allOk a && allOk b) := by
  induction a with
  | nil => simp [allOk]
  | cons o rest ih =>
    cases o with
    | plain s => simp [allOk, ih]
    | raising s ok => simp [allOk, ih, Bool.and_assoc]
    | nonfatal s ok onFail => simp [allOk, ih]

theorem opStepsAll_append (a b : List Op) :
    opStepsAll (a ++ b) = opStepsAll a ++ opStepsAll b := by
  induction a with
  | nil => simp [opStepsAll]
  | cons o rest ih =>
    cases o with
    | plain s => simp [opStepsAll, ih]
    | raising s ok => simp [opStepsAll, ih]
    | nonfatal s ok onFail => simp [opStepsAll, ih]

/-- Environment oracle for `book_slot`: which remote operations succeed.
`fillOk` is per field label (whether `fill_text_cell` completes without
raising); `airportSelectOk` is the boolean result of
`select_row_react_select`; `sendOk` the result of `click_send_all`. -/
structure Env where
  navOk : Bool
  addRowOk : Bool
  airportSelectOk : Bool
  fillOk : String → Bool
  stcOk : Bool
  parklocOk : Bool
  sendOk : Bool

/-- A conditional single fill operation of `book_slot`
(`if slot.get(k): fill_text_cell(page, label, slot[k])`). -/
def fillOp (env : Env) (cond : Bool) (label value : String) : List Op :=
  if cond then [Op.raising (Step.fill label value) (env.fillOk label)] else []

/-- The Date fill of `book_slot`: fill, then press Escape to dismiss the
date-picker overlay (reached only when the fill did not raise). -/
def dateOps (env : Env) (cond : Bool) (value : String) : List Op :=
  if cond then
    [Op.raising (Step.fill "Date" value) (env.fillOk "Date"), Op.plain Step.pressEscape]
  else []

/-- The operation sequence of `OCSAutomationSession.book_slot` after the
session check: reset the debug log, apply defaults (reflected in the slot
used below), ensure the Add Flights page, pick the add-row key from the
operation (raising on an unknown operation), click the add-row button, then
the conditional field operations in source order, the STC select, and the
ParkLoc select for airport CYYZ. -/
def opsFor (env : Env) (slot : Slot) : List Op :=
  let slot' := apply_slot_defaults slot
  let operation := slotOperationOf slot
  let parkloc := slotParklocOf slot
  [Op.plain Step.resetLog, Op.raising Step.ensureNav env.navOk] ++
  (if operation = "departure" ∨ operation = "arrival" then
    [Op.raising (Step.addRow (if operation = "departure" then "dep-reg" else "arr-reg"))
       env.addRowOk] ++
    (if truthy slot'.airport then
      [Op.nonfatal (Step.selectAirport (getS slot'.airport)) env.airportSelectOk
         (Step.errorDialog "Couldnt select A/P dropdown. Well need to tweak selector.")]
     else []) ++
    fillOp env (truthy slot'.acreg) "A/C Reg" (getS slot'.acreg) ++
    dateOps env (truthy slot'.date) (getS slot'.date) ++
    fillOp env (truthy slot'.seats) "Seats" (getS slot'.seats) ++
    fillOp env (truthy slot'.ac_type) "A/C Type" (getS slot'.ac_type) ++
    fillOp env (truthy slot'.time) "Time" (getS slot'.time) ++
    fillOp env (truthy slot'.other_airport)
      (if operation = "departure" then "Dest" else "Orig") (getS slot'.other_airport) ++
    [Op.raising (Step.selectStcOpt "D") env.stcOk] ++
    (if slot'.airport = some "CYYZ" then
      [Op.raising (Step.selectParklocOpt parkloc) env.parklocOk]
     else [])
   else [Op.raising (Step.unknownOp operation) false])

/-- The lifecycle state of `OCSAutomationSession` (which handles exist). -/
structure SessionSt where
  pw : Bool
  browser : Bool
  context : Bool
  page : Bool
  deriving DecidableEq

/-- Result of a `book_slot` call: the slot dict after the call (defaults are
applied by mutation), the remote steps performed, and the exception that
propagated, if any. -/
structure BookResult where
  slotAfter : Slot
  trace : List Step
  err : Option String
  deriving DecidableEq

/-- Embeds `OCSAutomationSession.book_slot`: a `RuntimeError` before anything
else when the session has no page; otherwise run the operation sequence; when
it completes, click Send All and show the info/error dialog for its result. -/
def book_slot (env : Env) (st : SessionSt) (slot : Slot) : BookResult :=
  if st.page = false then
    ⟨slot, [], some "RuntimeError: Session has not been started. Call start() first."⟩
  else
    let r := run (opsFor env slot)
    if r.2 then
      ⟨apply_slot_defaults slot,
       r.1 ++ [Step.sendAll env.sendOk,
               if env.sendOk then
                 Step.infoDialog "Send All clicked automatically."
               else
                 Step.errorDialog "Couldnt click Send All automatically."],
       none⟩
    else ⟨apply_slot_defaults slot, r.1, some "Exception"⟩

/-- Environment oracle for `fill_slot_form`: `fillSelOk` is per direct CSS
selector, `fillLabelOk` per label for the `fill_text_cell` fallback, `svcOk`
whether the combined service-type control becomes visible and clickable. -/
structure Env2 where
  rowOk : Bool
  airportOk : Bool
  fillSelOk : String → Bool
  fillLabelOk : String → Bool
  stcOk : Bool
  svcOk : Bool
  parklocOk : Bool

/-- The operation sequence of `fill_slot_form`: wait for the first-flight
row, the A/P dropdown (raising), the direct-selector fills (acreg, date with
Escape, time with the dep/arr selector fallback, counterpart airport with a
label fallback), `select_stc(page, "D")`, and for airport CYYZ the combined
service-type control with `select_parkloc` as the exception fallback. -/
def ffOps (e : Env2) (slot : Slot) (operation parkloc : String) : List Op :=
  [Op.raising Step.rowVisible e.rowOk] ++
  (if truthy slot.airport then
    [Op.raising (Step.selectAirport (getS slot.airport)) e.airportOk]
   else []) ++
  (if truthy slot.acreg then
    [Op.raising (Step.fill "#aircraftRegistration" (getS slot.acreg))
       (e.fillSelOk "#aircraftRegistration")]
   else []) ++
  (if truthy slot.date then
    [Op.raising (Step.fill "input-startDate" (getS slot.date))
       (e.fillSelOk "input-startDate"),
     Op.plain Step.pressEscape]
   else []) ++
  (if truthy slot.time then
    (if e.fillSelOk "#clearedTimeDep" then
      [Op.plain (Step.fill "#clearedTimeDep" (getS slot.time))]
     else if e.fillSelOk "#clearedTimeArr" then
      [Op.plain (Step.fill "#clearedTimeArr" (getS slot.time))]
     else [Op.raising (Step.fill "#clearedTimeArr" (getS slot.time)) false])
   else []) ++
  (if truthy slot.other_airport then
    (if e.fillSelOk (if operation = "departure" then "#destinationStation" else "#originStation") then
      [Op.plain (Step.fill
         (if operation = "departure" then "#destinationStation" else "#originStation")
         (getS slot.other_airport))]
     else
      [Op.raising
         (Step.fill (if operation = "departure" then "Dest" else "Orig") (getS slot.other_airport))
         (e.fillLabelOk (if operation = "departure" then "Dest" else "Orig"))])
   else []) ++
  [Op.raising (Step.selectStcOpt "D") e.stcOk] ++
  (if slot.airport = some "CYYZ" then
    (if e.svcOk then
      [Op.plain (Step.svcControlTry true),
       Op.plain (Step.selectCombinedService "D General Aviation")]
     else
      [Op.plain (Step.svcControlTry false),
       Op.raising (Step.selectParklocOpt parkloc) e.parklocOk])
   else [])

/-- Embeds `fill_slot_form(page, slot, operation, parkloc)`. -/
def fill_slot_form (e : Env2) (slot : Slot) (operation parkloc : String) :
    List Step × Bool :=
  run (ffOps e slot operation parkloc)

structure Creds where
  username : String
  password : String
  passphrase : String
  deriving DecidableEq

inductive StartAction
  | startPlaywright
  | launchBrowser
  | newContext
  | newPage
  | login (c : Creds)
  | navToAddFlights
  deriving DecidableEq

/-- Embeds `OCSAutomationSession.start`: return immediately when a page
already exists; otherwise start playwright, launch the browser, create the
context and page, log in and navigate. -/
def start (st : SessionSt) (creds : Creds) : SessionSt × List StartAction :=
  if st.page then (st, [])
  else
    (⟨true, true, true, true⟩,
     [StartAction.startPlaywright, StartAction.launchBrowser, StartAction.newContext,
      StartAction.newPage, StartAction.login creds, StartAction.navToAddFlights])

/-- Recognizes the Send All click. -/
def isSendAll : Step → Bool
  | Step.sendAll _ => true
  | _ => false

/-- Recognizes a generic ParkLoc selection. -/
def isParkloc : Step → Bool
  | Step.selectParklocOpt _ => true
  | _ => false

/-- Recognizes a combined service-type selection. -/
def isCombined : Step → Bool
  | Step.selectCombinedService _ => true
  | _ => false

/-- The main step of an operation. -/
def mainStep : Op → Step
  | Op.plain s => s
  | Op.raising s _ => s
  | Op.nonfatal s _ _ => s

theorem mem_run_of_allOk (l : List Op) (h : allOk l = true) :
    ∀ o ∈ l, mainStep o ∈ (run l).1 := by
  induction l with
  | nil => intro o ho; simp at ho
  | cons o₀ rest ih =>
    intro o ho
    rcases List.mem_cons.mp ho with hhead | htail
    · subst hhead
      cases o with
      | plain s => simp [run, mainStep]
      | raising s ok =>
        have hok : ok = true := by
          cases ok
          · simp [allOk] at h
          · rfl
        subst hok
        simp [run, mainStep]
      | nonfatal s ok onFail => simp [run, mainStep]
    · cases o₀ with
      | plain s =>
        have hrest : allOk rest = true := by simpa [allOk] using h
        simp [run, List.mem_cons]
        exact Or.inr (ih hrest o htail)
      | raising s ok =>
        have hok : ok = true := by
          cases ok
          · simp [allOk] at h
          · rfl
        subst hok
        have hrest : allOk rest = true := by simpa [allOk] using h
        simp [run, List.mem_cons]
        exact Or.inr (ih hrest o htail)
      | nonfatal s ok onFail =>
        have hrest : allOk rest = true := by simpa [allOk] using h
        simp [run, List.mem_append]
        exact Or.inr (Or.inr (ih hrest o htail))

theorem apply_airport (s : Slot) : (apply_slot_defaults s).airport = s.airport := rfl

theorem all_append_opSteps (p : Step → Bool) (a b : List Op)
    (ha : (opStepsAll a).all p = true) (hb : (opStepsAll b).all p = true) :
    (opStepsAll (a ++ b)).all p = true := by
  rw [opStepsAll_append, List.all_append, ha, hb]
  rfl

theorem all_ite_opSteps (p : Step → Bool) (c : Prop) [Decidable c] (xs ys : List Op)
    (hx : c → (opStepsAll xs).all p = true) (hy : ¬c → (opStepsAll ys).all p = true) :
    (opStepsAll (if c then xs else ys)).all p = true := by
  split_ifs with h
  · exact hx h
  · exact hy h

theorem opsFor_steps_tags (env : Env) (slot : Slot) :
    (opStepsAll (opsFor env slot)).all
      (fun s => !isSendAll s && !isCombined s &&
        (!isParkloc s || decide (slot.airport = some "CYYZ"))) = true := by
  simp only [opsFor, fillOp, dateOps]
  refine all_append_opSteps _ _ _ (by simp [opStepsAll, isSendAll, isCombined, isParkloc]) ?_
  refine all_ite_opSteps _ _ _ _ (fun _ => ?_)
    (fun _ => by simp [opStepsAll, isSendAll, isCombined, isParkloc])
  refine all_append_opSteps _ _ _ ?_
    (all_ite_opSteps _ _ _ _ (fun h => ?_) (fun _ => by simp [opStepsAll]))
  · refine all_append_opSteps _ _ _ ?_
      (by simp [opStepsAll, isSendAll, isCombined, isParkloc])
    refine all_append_opSteps _ _ _ ?_
      (all_ite_opSteps _ _ _ _
        (fun _ => by simp [opStepsAll, isSendAll, isCombined, isParkloc])
        (fun _ => by simp [opStepsAll]))
    refine all_append_opSteps _ _ _ ?_
      (all_ite_opSteps _ _ _ _
        (fun _ => by simp [opStepsAll, isSendAll, isCombined, isParkloc])
        (fun _ => by simp [opStepsAll]))
    refine all_append_opSteps _ _ _ ?_
      (all_ite_opSteps _ _ _ _
        (fun _ => by simp [opStepsAll, isSendAll, isCombined, isParkloc])
        (fun _ => by simp [opStepsAll]))
    refine all_append_opSteps _ _ _ ?_
      (all_ite_opSteps _ _ _ _
        (fun _ => by simp [opStepsAll, isSendAll, isCombined, isParkloc])
        (fun _ => by simp [opStepsAll]))
    refine all_append_opSteps _ _ _ ?_
      (all_ite_opSteps _ _ _ _
        (fun _ => by simp [opStepsAll, isSendAll, isCombined, isParkloc])
        (fun _ => by simp [opStepsAll]))
    refine all_append_opSteps _ _ _ ?_
      (all_ite_opSteps _ _ _ _
        (fun _ => by simp [opStepsAll, isSendAll, isCombined, isParkloc])
        (fun _ => by simp [opStepsAll]))
    refine all_append_opSteps _ _ _ ?_
      (all_ite_opSteps _ _ _ _
        (fun _ => by simp [opStepsAll, isSendAll, isCombined, isParkloc])
        (fun _ => by simp [opStepsAll]))
    exact (by simp [opStepsAll, isSendAll, isCombined, isParkloc])
  · have hcy : slot.airport = some "CYYZ" := h
    simp [opStepsAll, isSendAll, isCombined, isParkloc, hcy]

theorem run_opsFor_tags (env : Env) (slot : Slot) :
    ((run (opsFor env slot)).1.any isSendAll = false) ∧
    ((run (opsFor env slot)).1.any isCombined = false) ∧
    (slot.airport ≠ some "CYYZ" → (run (opsFor env slot)).1.any isParkloc = false) := by
  have htags := opsFor_steps_tags env slot
  rw [List.all_eq_true] at htags
  have hstep : ∀ s ∈ (run (opsFor env slot)).1,
      isSendAll s = false ∧ isCombined s = false ∧
      (isParkloc s = true → slot.airport = some "CYYZ") := by
    intro s hs
    have hm := htags s (run_subset _ s hs)
    simp only [Bool.and_eq_true, Bool.or_eq_true, Bool.not_eq_true'] at hm
    refine ⟨hm.1.1, hm.1.2, ?_⟩
    intro hp
    rcases hm.2 with h | h
    · rw [hp] at h; cases h
    · exact of_decide_eq_true h
  refine ⟨?_, ?_, ?_⟩
  · rw [List.any_eq_false]
    intro s hs
    simp [(hstep s hs).1]
  · rw [List.any_eq_false]
    intro s hs
    simp [(hstep s hs).2.1]
  · intro hne
    rw [List.any_eq_false]
    intro s hs
    intro hp
    exact hne ((hstep s hs).2.2 (by simpa using hp))

/-- The conditions under which `book_slot` reaches its submission step: a
valid operation, navigation and row-add succeeding, every attempted text fill
succeeding, the STC selection succeeding, and — for CYYZ bookings — the
ParkLoc selection succeeding.  The airport dropdown result is absent. -/
def requiredOk (env : Env) (slot : Slot) : Prop :=
  (slotOperationOf slot = "departure" ∨ slotOperationOf slot = "arrival") ∧
  env.navOk = true ∧ env.addRowOk = true ∧
  (truthy (apply_slot_defaults slot).acreg = true → env.fillOk "A/C Reg" = true) ∧
  (truthy (apply_slot_defaults slot).date = true → env.fillOk "Date" = true) ∧
  (truthy (apply_slot_defaults slot).seats = true → env.fillOk "Seats" = true) ∧
  (truthy (apply_slot_defaults slot).ac_type = true → env.fillOk "A/C Type" = true) ∧
  (truthy (apply_slot_defaults slot).time = true → env.fillOk "Time" = true) ∧
  (truthy (apply_slot_defaults slot).other_airport = true →
    env.fillOk (if slotOperationOf slot = "departure" then "Dest" else "Orig") = true) ∧
  env.stcOk = true ∧
  (slot.airport = some "CYYZ" → env.parklocOk = true)

theorem allOk_opsFor_iff (env : Env) (slot : Slot) :
    allOk (opsFor env slot) = true ↔ requiredOk env slot := by
  have hIte : ∀ (c : Prop) (inst : Decidable c) (b : Bool),
      ((if c then b else true) = true) ↔ (c → b = true) := by
    intro c inst b
    split_ifs with h <;> simp [h]
  have hOr : ∀ (c : Bool) (P : Prop), (c = false ∨ P) ↔ (c = true → P) := by
    intro c P
    cases c <;> simp
  have hOr2 : ∀ (Q P : Prop), (¬Q ∨ P) ↔ (Q → P) := by
    intro Q P
    constructor
    · rintro (h | h) hq
      · exact absurd hq h
      · exact h
    · intro h
      by_cases hq : Q
      · exact Or.inr (h hq)
      · exact Or.inl hq
  simp only [opsFor, fillOp, dateOps, requiredOk]
  by_cases hv : slotOperationOf slot = "departure" ∨ slotOperationOf slot = "arrival"
  · simp only [hv, if_true, iff_true_intro hv, true_and]
    simp [allOk_append, allOk, apply_ite allOk, hIte, apply_airport,
      Bool.and_eq_true, and_assoc, hOr, hOr2]
  · simp [hv, allOk_append, allOk]

theorem book_sendAll_eq (env : Env) (st : SessionSt) (slot : Slot)
    (hp : st.page = true) :
    (book_slot env st slot).trace.any isSendAll = allOk (opsFor env slot) := by
  have hr2 := run_snd_eq_allOk (opsFor env slot)
  have hr1 := (run_opsFor_tags env slot).1
  by_cases hall : allOk (opsFor env slot) = true
  · simp [book_slot, hp, hr2, hall, List.any_append, isSendAll]
  · have hfalse : allOk (opsFor env slot) = false := by
      cases h : allOk (opsFor env slot)
      · rfl
      · exact absurd h hall
    simp [book_slot, hp, hr2, hfalse, hr1]

/-- Session with an open page, and one never started. -/
def stActive : SessionSt := ⟨true, true, true, true⟩

def stIdle : SessionSt := ⟨false, false, false, false⟩

/-- Environment where every remote operation succeeds. -/
def envAllOk : Env := ⟨true, true, true, fun _ => true, true, true, true⟩

/-- Everything succeeds except the A/P dropdown selection. -/
def envAPFail : Env := ⟨true, true, false, fun _ => true, true, true, true⟩

/-- Everything succeeds except the Date text fill. -/
def envDateFail : Env := ⟨true, true, true, fun l => !(l == "Date"), true, true, true⟩

def slotCYYZ : Slot :=
  ⟨some "departure", some "CYYZ", some "CFASY", some "27NOV", some "0800",
   none, none, some "KTEB", none⟩

def slotCYYC : Slot :=
  ⟨some "departure", some "CYYC", some "CFASY", some "27NOV", some "0800",
   none, none, some "KTEB", none⟩

/-- C2 counterexample: (i) with every operation succeeding except the A/P
dropdown selection, the airport selection fails (the error dialog is shown)
yet Send All is still clicked — submission does not require a successful
airport selection; (ii) with only the Date fill failing, row-add and airport
selection both succeed, yet the remaining Seats fill is never attempted and
Send All is not clicked. -/
theorem book_submission_iff_counterexample :
    ((book_slot envAPFail stActive slotCYYC).trace.any isSendAll = true ∧
     Step.errorDialog "Couldnt select A/P dropdown. Well need to tweak selector." ∈
       (book_slot envAPFail stActive slotCYYC).trace) ∧
    ((book_slot envDateFail stActive slotCYYC).trace.any isSendAll = false ∧
     Step.addRow "dep-reg" ∈ (book_slot envDateFail stActive slotCYYC).trace ∧
     Step.selectAirport "CYYC" ∈ (book_slot envDateFail stActive slotCYYC).trace ∧
     Step.fill "Seats" "9" ∉ (book_slot envDateFail stActive slotCYYC).trace) := by
  decide

/-- C2 (amended): a failed airport dropdown selection is reported via an
error dialog but is not fatal — it never changes whether submission is
attempted.  Any other failing operation (navigation, row add, a text fill,
the STC selection, or the CYYZ ParkLoc selection) raises and aborts the
booking.  Send All is clicked if and only if the operation is valid and
navigation, row add, every attempted text fill, the STC selection and (for
CYYZ bookings) the ParkLoc selection succeeded — independent of the
airport-selection outcome. -/
theorem book_submission_characterization (env : Env) (st : SessionSt) (slot : Slot)
    (hp : st.page = true) :
    (((book_slot env st slot).trace.any isSendAll = true) ↔ requiredOk env slot) ∧
    ((book_slot { env with airportSelectOk := false } st slot).trace.any isSendAll =
      (book_slot env st slot).trace.any isSendAll) := by
  constructor
  · rw [book_sendAll_eq env st slot hp]
    exact allOk_opsFor_iff env slot
  · rw [book_sendAll_eq { env with airportSelectOk := false } st slot hp,
      book_sendAll_eq env st slot hp]
    have h1 := allOk_opsFor_iff { env with airportSelectOk := false } slot
    have h2 := allOk_opsFor_iff env slot
    have hreq : requiredOk { env with airportSelectOk := false } slot ↔ requiredOk env slot :=
      Iff.rfl
    cases hb1 : allOk (opsFor { env with airportSelectOk := false } slot) <;>
      cases hb2 : allOk (opsFor env slot) <;> simp_all

/-- Witness for C2's amended characterization on a concrete all-succeeding
environment. -/
theorem book_submission_characterization_witness :
    (book_slot envAllOk stActive slotCYYC).trace.any isSendAll = true ∧
    requiredOk envAllOk slotCYYC := by
  have hreq : requiredOk envAllOk slotCYYC := by
    refine ⟨Or.inl (by decide), rfl, rfl, ?_, ?_, ?_, ?_, ?_, ?_, rfl, ?_⟩ <;>
      intro _ <;> rfl
  exact ⟨((book_submission_characterization envAllOk stActive slotCYYC rfl).1).mpr hreq, hreq⟩

theorem bool_ne_true_eq_false (b : Bool) (h : ¬b = true) : b = false := by
  cases b
  · rfl
  · exact absurd rfl h

theorem book_no_combined_aux (env : Env) (st : SessionSt) (slot : Slot) :
    (book_slot env st slot).trace.any isCombined = false := by
  have hr2 := run_snd_eq_allOk (opsFor env slot)
  have hc := (run_opsFor_tags env slot).2.1
  by_cases hp : st.page = false
  · simp [book_slot, hp]
  · have hp' : st.page = true := by
      cases h : st.page
      · exact absurd h hp
      · rfl
    by_cases hall : allOk (opsFor env slot) = true
    · cases hsend : env.sendOk <;>
        simp [book_slot, hp', hr2, hall, hsend, List.any_append, isCombined, hc]
    · simp [book_slot, hp', hr2, bool_ne_true_eq_false _ hall, hc]

theorem book_no_parkloc_aux (env : Env) (st : SessionSt) (slot : Slot)
    (hne : slot.airport ≠ some "CYYZ") :
    (book_slot env st slot).trace.any isParkloc = false := by
  have hr2 := run_snd_eq_allOk (opsFor env slot)
  have hc := (run_opsFor_tags env slot).2.2 hne
  by_cases hp : st.page = false
  · simp [book_slot, hp]
  · have hp' : st.page = true := by
      cases h : st.page
      · exact absurd h hp
      · rfl
    by_cases hall : allOk (opsFor env slot) = true
    · cases hsend : env.sendOk <;>
        simp [book_slot, hp', hr2, hall, hsend, List.any_append, isParkloc, hc]
    · simp [book_slot, hp', hr2, bool_ne_true_eq_false _ hall, hc]

theorem parklocOp_mem_opsFor (env : Env) (slot : Slot)
    (hv : slotOperationOf slot = "departure" ∨ slotOperationOf slot = "arrival")
    (hcy : slot.airport = some "CYYZ") :
    Op.raising (Step.selectParklocOpt (slotParklocOf slot)) env.parklocOk ∈
      opsFor env slot := by
  have hcy' : (apply_slot_defaults slot).airport = some "CYYZ" := hcy
  simp [opsFor, fillOp, dateOps, hv, hcy', List.mem_append]

theorem cyyz_parkloc_in_trace (env : Env) (st : SessionSt) (slot : Slot)
    (hp : st.page = true) (hall : allOk (opsFor env slot) = true)
    (hcy : slot.airport = some "CYYZ") :
    Step.selectParklocOpt (slotParklocOf slot) ∈ (book_slot env st slot).trace := by
  have hv := ((allOk_opsFor_iff env slot).mp hall).1
  have hmem := mem_run_of_allOk (opsFor env slot) hall _ (parklocOp_mem_opsFor env slot hv hcy)
  have hr2 := run_snd_eq_allOk (opsFor env slot)
  simp only [book_slot, hp, Bool.true_eq_false, if_false, hr2, hall, if_true]
  exact List.mem_append.mpr (Or.inl hmem)

theorem ffOps_no_parkloc_steps (e : Env2) (slot : Slot) (operation parkloc : String)
    (hsvc : e.svcOk = true) :
    (opStepsAll (ffOps e slot operation parkloc)).all (fun s => !isParkloc s) = true := by
  simp only [ffOps]
  refine all_append_opSteps _ _ _ ?_
    (all_ite_opSteps _ _ _ _ (fun _ => by simp [hsvc, opStepsAll, isParkloc])
      (fun _ => by simp [opStepsAll]))
  refine all_append_opSteps _ _ _ ?_ (by simp [opStepsAll, isParkloc])
  refine all_append_opSteps _ _ _ ?_
    (all_ite_opSteps _ _ _ _ (fun _ => by split_ifs <;> simp [opStepsAll, isParkloc])
      (fun _ => by simp [opStepsAll]))
  refine all_append_opSteps _ _ _ ?_
    (all_ite_opSteps _ _ _ _ (fun _ => by split_ifs <;> simp [opStepsAll, isParkloc])
      (fun _ => by simp [opStepsAll]))
  refine all_append_opSteps _ _ _ ?_
    (all_ite_opSteps _ _ _ _ (fun _ => by simp [opStepsAll, isParkloc])
      (fun _ => by simp [opStepsAll]))
  refine all_append_opSteps _ _ _ ?_
    (all_ite_opSteps _ _ _ _ (fun _ => by simp [opStepsAll, isParkloc])
      (fun _ => by simp [opStepsAll]))
  refine all_append_opSteps _ _ _ ?_
    (all_ite_opSteps _ _ _ _ (fun _ => by simp [opStepsAll, isParkloc])
      (fun _ => by simp [opStepsAll]))
  exact (by simp [opStepsAll, isParkloc])

theorem ff_no_parkloc (e : Env2) (slot : Slot) (operation parkloc : String)
    (hsvc : e.svcOk = true) :
    (fill_slot_form e slot operation parkloc).1.any isParkloc = false := by
  have htags := ffOps_no_parkloc_steps e slot operation parkloc hsvc
  rw [List.all_eq_true] at htags
  rw [List.any_eq_false]
  intro s hs
  have hm := htags s (run_subset _ s hs)
  simpa using hm

theorem combinedOp_mem_ffOps (e : Env2) (slot : Slot) (operation parkloc : String)
    (hcy : slot.airport = some "CYYZ") (hsvc : e.svcOk = true) :
    Op.plain (Step.selectCombinedService "D General Aviation") ∈
      ffOps e slot operation parkloc := by
  simp [ffOps, hcy, hsvc, List.mem_append]

theorem parklocOp_mem_ffOps (e : Env2) (slot : Slot) (operation parkloc : String)
    (hcy : slot.airport = some "CYYZ") (hsvc : e.svcOk = false) :
    Op.raising (Step.selectParklocOpt parkloc) e.parklocOk ∈
      ffOps e slot operation parkloc := by
  simp [ffOps, hcy, hsvc, List.mem_append]

/-- C1 counterexample: with every remote operation succeeding and a CYYZ
booking, book_slot performs the generic ParkLoc selection (with the default
parking location) and never touches a combined service-type control — the
opposite of the claimed behavior. -/
theorem cyyz_parkloc_counterexample :
    Step.selectParklocOpt "SKYCHARTER" ∈ (book_slot envAllOk stActive slotCYYZ).trace ∧
    (book_slot envAllOk stActive slotCYYZ).trace.any isCombined = false := by
  decide

/-- C1 (amended): in `book_slot`, a CYYZ booking performs the generic ParkLoc
selection (with the slot's parking location) and a combined service-type
control is never selected; non-CYYZ bookings skip ParkLoc entirely.  The
combined-control preference exists only in `fill_slot_form`: there, for a
CYYZ booking, the option "D General Aviation" is selected on the combined
control when it is available and ParkLoc is then skipped; the generic ParkLoc
selection happens only as the fallback when the combined control fails. -/
theorem cyyz_combined_vs_parkloc :
    (∀ (env : Env) (st : SessionSt) (slot : Slot),
      (book_slot env st slot).trace.any isCombined = false) ∧
    (∀ (env : Env) (st : SessionSt) (slot : Slot),
      st.page = true → allOk (opsFor env slot) = true → slot.airport = some "CYYZ" →
      Step.selectParklocOpt (slotParklocOf slot) ∈ (book_slot env st slot).trace) ∧
    (∀ (env : Env) (st : SessionSt) (slot : Slot),
      slot.airport ≠ some "CYYZ" →
      (book_slot env st slot).trace.any isParkloc = false) ∧
    (∀ (e : Env2) (slot : Slot) (operation parkloc : String),
      slot.airport = some "CYYZ" →
      (e.svcOk = true →
        (allOk (ffOps e slot operation parkloc) = true →
          Step.selectCombinedService "D General Aviation" ∈
            (fill_slot_form e slot operation parkloc).1) ∧
        (fill_slot_form e slot operation parkloc).1.any isParkloc = false) ∧
      (e.svcOk = false →
        allOk (ffOps e slot operation parkloc) = true →
        Step.selectParklocOpt parkloc ∈ (fill_slot_form e slot operation parkloc).1)) := by
  refine ⟨book_no_combined_aux, cyyz_parkloc_in_trace, book_no_parkloc_aux, ?_⟩
  intro e slot operation parkloc hcy
  constructor
  · intro hsvc
    constructor
    · intro hall
      exact mem_run_of_allOk _ hall _ (combinedOp_mem_ffOps e slot operation parkloc hcy hsvc)
    · exact ff_no_parkloc e slot operation parkloc hsvc
  · intro hsvc hall
    exact mem_run_of_allOk _ hall _ (parklocOp_mem_ffOps e slot operation parkloc hcy hsvc)

def envSvcFail : Env2 := ⟨true, true, fun _ => true, fun _ => true, true, false, true⟩

def envSvcOk : Env2 := ⟨true, true, fun _ => true, fun _ => true, true, true, true⟩

/-- Witness for C1's amended behavior: concrete CYYZ bookings through
book_slot (ParkLoc selected, nothing combined) and through fill_slot_form
(combined control selected, ParkLoc skipped when available; ParkLoc fallback
when the combined control fails). -/
theorem cyyz_combined_vs_parkloc_witness :
    Step.selectParklocOpt "SKYCHARTER" ∈ (book_slot envAllOk stActive slotCYYZ).trace ∧
    Step.selectCombinedService "D General Aviation" ∈
      (fill_slot_form envSvcOk slotCYYZ "departure" "SKYCHARTER").1 ∧
    (fill_slot_form envSvcOk slotCYYZ "departure" "SKYCHARTER").1.any isParkloc = false ∧
    Step.selectParklocOpt "SKYCHARTER" ∈
      (fill_slot_form envSvcFail slotCYYZ "departure" "SKYCHARTER").1 := by
  refine ⟨cyyz_combined_vs_parkloc.2.1 envAllOk stActive slotCYYZ rfl (by decide) rfl, ?_, ?_, ?_⟩
  · exact ((cyyz_combined_vs_parkloc.2.2.2 envSvcOk slotCYYZ "departure" "SKYCHARTER" rfl).1
      rfl).1 (by decide)
  · exact ((cyyz_combined_vs_parkloc.2.2.2 envSvcOk slotCYYZ "departure" "SKYCHARTER" rfl).1
      rfl).2
  · exact (cyyz_combined_vs_parkloc.2.2.2 envSvcFail slotCYYZ "departure" "SKYCHARTER" rfl).2
      rfl (by decide)

/-- C9: calling book_slot on a session that was never started raises the
RuntimeError immediately: no remote step is performed, the debug log is not
reset, and the slot is left untouched (no defaults applied). -/
theorem book_slot_requires_started (env : Env) (st : SessionSt) (slot : Slot)
    (h : st.page = false) :
    book_slot env st slot =
      ⟨slot, [], some "RuntimeError: Session has not been started. Call start() first."⟩ := by
  simp [book_slot, h]

/-- Witness for C9 on a concrete idle session. -/
theorem book_slot_requires_started_witness :
    book_slot envAllOk stIdle slotCYYZ =
      ⟨slotCYYZ, [], some "RuntimeError: Session has not been started. Call start() first."⟩ :=
  book_slot_requires_started envAllOk stIdle slotCYYZ rfl

/-- C10: start on a session whose page already exists returns immediately:
no browser launch, no authentication, no navigation, and no session field
changes. -/
theorem start_idempotent_on_active (st : SessionSt) (creds : Creds)
    (h : st.page = true) :
    start st creds = (st, []) := by
  simp [start, h]

/-- Witness for C10 on a concrete active session. -/
theorem start_idempotent_on_active_witness :
    start stActive ⟨"u", "p", "s"⟩ = (stActive, []) :=
  start_idempotent_on_active stActive ⟨"u", "p", "s"⟩ rfl

end OCS
